import Mathlib

/-!
Verification development for the quizapp content-ingestion and attributed-
generation pipeline.  The definitions below are shallow embeddings of the
JavaScript source (`src/services/supabaseService.js` and the
`FileProcessingService` class): pure computations become Lean functions,
database / storage effects become explicit state passing over record types,
and fallible steps return `Except String`.
-/

namespace Quizapp

/-! ## JavaScript string helpers

`jsSplitWs s` models the JavaScript expression `s.split(/\s+/)`: the string
is split at maximal runs of whitespace, and a leading or trailing run
contributes an empty boundary token (`"a b".split(/\s+/) = ["a","b"]`,
`" a".split(/\s+/) = ["","a"]`, `"".split(/\s+/) = [""]`).
`jsWordCount` is the `split(/\s+/).length` idiom used throughout the
extraction strategies. -/

def splitWsAux (l : List Char) (inWs : Bool) (cur : List Char) :
    List (List Char) :=
  match l with
  | [] => [cur.reverse]
  | c :: rest =>
    if c.isWhitespace then
      if inWs then splitWsAux rest true cur
      else cur.reverse :: splitWsAux rest true []
    else
      splitWsAux rest false (c :: cur)

def jsSplitWs (s : String) : List String :=
  (splitWsAux s.toList false []).map (fun cs => String.mk cs)

def jsWordCount (s : String) : Nat :=
  (jsSplitWs s).length

/-- Models `s.replace(/\s+/g, ' ')`: every maximal whitespace run collapses
to a single space. -/
def collapseWsAux (l : List Char) (inWs : Bool) : List Char :=
  match l with
  | [] => []
  | c :: rest =>
    if c.isWhitespace then
      if inWs then collapseWsAux rest true
      else ' ' :: collapseWsAux rest true
    else
      c :: collapseWsAux rest false

def jsCollapseWs (s : String) : String :=
  String.mk (collapseWsAux s.toList false)

/-- Models `s.trim()`: leading and trailing whitespace removed. -/
def jsTrim (s : String) : String :=
  String.mk
    (((s.toList.dropWhile Char.isWhitespace).reverse.dropWhile
      Char.isWhitespace).reverse)

/-! ## Extracted content

`ExtractedContent` is the transient record every extraction strategy
returns.  The loosely-typed metadata bag is modelled as one record of
optional kind-specific fields around the always-present `wordCount`. -/

structure ExtractionMetadata where
  wordCount : Nat
  hasTranscript : Option Bool := none
  pages : Option Nat := none
  extractionError : Option String := none
  isTextContent : Option Bool := none
deriving DecidableEq, Repr

structure ExtractedContent where
  ctype : String
  source : String
  extractedText : String
  metadata : ExtractionMetadata
deriving DecidableEq, Repr

/-! ## Flashcard spaced-repetition progress

Embedding of `updateFlashcardProgress` (supabaseService.js).  The stored
row keeps a review counter and the current review interval in days.  The
JavaScript computes `interval = known ? existing.interval * 2.5 : 1` when a
row exists and `interval = 1, reviews = 1` otherwise; intervals are modelled
as rationals (the code multiplies by the literal `2.5`). -/

structure FlashcardProgress where
  reviews : Nat
  interval : ℚ
deriving DecidableEq, Repr

def updateFlashcardProgress (existing : Option FlashcardProgress)
    (known : Bool) : FlashcardProgress :=
  match existing with
  | none => { reviews := 1, interval := 1 }
  | some e =>
    { reviews := e.reviews + 1
      interval := if known then e.interval * (5 / 2 : ℚ) else 1 }

/-! ## Data model

Records mirror the rows of the `sources`, `generations`, `questions`,
`generation_items` and `knowledge_base` tables as the service writes them.
Ids are `Nat`; nullable columns are `Option`; timestamps are abstract `Nat`
ticks.  A single authenticated user is assumed throughout (every service
call begins by requiring one and scopes every query to it), so `user_id`
columns are dropped from the embedding. -/

structure Source where
  id : Nat
  topicId : Nat
  documentId : Option Nat
  sourceType : String
  knowledgeBaseId : Option Nat
deriving DecidableEq, Repr

structure KBEntry where
  id : Nat
  topicId : Nat
  documentId : Option Nat
  content : String
  metadata : Option ExtractionMetadata := none
deriving DecidableEq, Repr

structure Breakdown where
  flashcards : Nat
  multipleChoice : Nat
  openEnded : Nat
  summaries : Nat
deriving DecidableEq, Repr

structure Generation where
  id : Nat
  topicId : Nat
  generationType : String
  sourceIds : List Nat
  status : String
  itemsGenerated : Option Nat
  breakdown : Option Breakdown
  errorMessage : Option String
  processingTimeMs : Option Nat
  completedAt : Option Nat
deriving DecidableEq, Repr

/-- Payload of one generated study artifact (the `question_data` JSON). -/
structure QData where
  qtype : String
  front : Option String
  question : Option String
  title : Option String
  difficulty : Option String
deriving DecidableEq, Repr

structure Question where
  id : Nat
  topicId : Nat
  qtype : String
  questionData : QData
  isSaved : Bool
  generationId : Option Nat
  sourceAttribution : List Nat
deriving DecidableEq, Repr

structure GenerationItem where
  generationId : Nat
  questionId : Nat
  itemType : String
  itemTitle : String
  difficulty : String
  derivedFromSources : List Nat
deriving DecidableEq, Repr

structure DbState where
  sources : List Source
  knowledgeBase : List KBEntry
  generations : List Generation
  questions : List Question
  generationItems : List GenerationItem
deriving DecidableEq, Repr

/-! ## Provenance store operations (supabaseService.js) -/

/-- Embeds `getSources(topicId)`: all sources of the topic. -/
def getSources (st : DbState) (topicId : Nat) : List Source :=
  st.sources.filter (fun s => s.topicId == topicId)

/-- Embeds `getKnowledgeBase(topicId)`: all knowledge-base entries of the topic. -/
def getKnowledgeBase (st : DbState) (topicId : Nat) : List KBEntry :=
  st.knowledgeBase.filter (fun k => k.topicId == topicId)

/-- Embeds `getKnowledgeBaseBySourceIds(topicId, sourceIds)`: resolves the selected
sources to document ids, pulls the topic knowledge-base rows for those
documents (all topic rows when no selected source carries a document id),
and merges in rows referenced by selected text-type sources, deduplicating
by entry id. -/
def getKnowledgeBaseBySourceIds (st : DbState) (topicId : Nat)
    (sourceIds : List Nat) : List KBEntry :=
  let sel := st.sources.filter
    (fun s => s.topicId == topicId && sourceIds.contains s.id)
  if sel.isEmpty then []
  else
    let documentIds := sel.filterMap Source.documentId
    let textKbIds := (sel.filter (fun s => s.sourceType == "text")).filterMap
      Source.knowledgeBaseId
    let base := st.knowledgeBase.filter (fun k => k.topicId == topicId)
    let filtered :=
      if documentIds.length > 0 then
        base.filter (fun k =>
          match k.documentId with
          | some d => documentIds.contains d
          | none => false)
      else base
    if textKbIds.length > 0 then
      let extra := (st.knowledgeBase.filter
          (fun k => k.topicId == topicId && textKbIds.contains k.id)).filter
        (fun k => !(filtered.map KBEntry.id).contains k.id)
      filtered ++ extra
    else filtered

/-- Embeds `createGeneration({topicId, generationType, sourceIds, status})`: insert
one row; the database assigns the fresh id `gid`. -/
def createGeneration (st : DbState) (gid topicId : Nat)
    (generationType : String) (sourceIds : List Nat) (status : String) :
    DbState × Generation :=
  let g : Generation :=
    { id := gid, topicId := topicId, generationType := generationType
      sourceIds := sourceIds, status := status, itemsGenerated := none
      breakdown := none, errorMessage := none, processingTimeMs := none
      completedAt := none }
  ({ st with generations := st.generations ++ [g] }, g)

/-- The `updates` object accepted by `updateGeneration`. -/
structure GenUpdates where
  status : Option String := none
  itemsGenerated : Option Nat := none
  breakdown : Option Breakdown := none
  errorMessage : Option String := none
  processingTimeMs : Option Nat := none
  completedAt : Option Nat := none
deriving DecidableEq, Repr

/-- Column-level effect of `updateGeneration`'s update object on one row:
each supplied field overwrites the stored one, unconditionally (the code
performs no check on the row's current status). -/
def applyGenUpdates (g : Generation) (u : GenUpdates) : Generation :=
  { g with
    status := u.status.getD g.status
    itemsGenerated := match u.itemsGenerated with
      | some n => some n
      | none => g.itemsGenerated
    breakdown := match u.breakdown with
      | some b => some b
      | none => g.breakdown
    errorMessage := match u.errorMessage with
      | some e => some e
      | none => g.errorMessage
    processingTimeMs := match u.processingTimeMs with
      | some t => some t
      | none => g.processingTimeMs
    completedAt := match u.completedAt with
      | some t => some t
      | none => g.completedAt }

/-- Embeds `updateGeneration(generationId, updates)`. -/
def updateGeneration (st : DbState) (gid : Nat) (u : GenUpdates) : DbState :=
  { st with
    generations := st.generations.map
      (fun g => if g.id == gid then applyGenUpdates g u else g) }

/-- Embeds `extractItemTitle(questionData)` (supabaseService.js): a display title
per item kind, truncated to 100 characters, with per-kind defaults for a
missing or empty field. -/
def extractItemTitle (q : QData) : String :=
  match q.qtype with
  | "flashcard" =>
    match q.front with
    | some f => if (f.take 100).isEmpty then "Flashcard" else f.take 100
    | none => "Flashcard"
  | "multiple-choice" =>
    match q.question with
    | some t => if (t.take 100).isEmpty then "Multiple Choice" else t.take 100
    | none => "Multiple Choice"
  | "open-ended" =>
    match q.question with
    | some t =>
      if (t.take 100).isEmpty then "Open-Ended Question" else t.take 100
    | none => "Open-Ended Question"
  | "summary" =>
    match q.title with
    | some t => if t.isEmpty then "Summary" else t
    | none => "Summary"
  | _ => "Study Item"

/-- Embeds `addQuestionsWithGeneration(topicId, questions, generationId,
sourceIds)`: inserts one `questions` row per generated payload, unsaved,
stamped with the generation id and with `source_attribution = sourceIds`;
the database assigns consecutive fresh ids from `firstId`.  Returns the
new state and the inserted rows. -/
def newQuestionRows (topicId : Nat) (qs : List QData) (generationId : Nat)
    (sourceIds : List Nat) (firstId : Nat) : List Question :=
  (List.range qs.length).zip qs |>.map (fun p =>
    { id := firstId + p.1, topicId := topicId, qtype := p.2.qtype
      questionData := p.2, isSaved := false
      generationId := some generationId
      sourceAttribution := sourceIds : Question })

def addQuestionsWithGeneration (st : DbState) (topicId : Nat)
    (qs : List QData) (generationId : Nat) (sourceIds : List Nat)
    (firstId : Nat) : DbState × List Question :=
  let rows := newQuestionRows topicId qs generationId sourceIds firstId
  ({ st with questions := st.questions ++ rows }, rows)

/-- Embeds `createGenerationItems(generationId, questions, sourceIds)`: one
`generation_items` row per inserted question, every one carrying
`derived_from_sources = sourceIds`. -/
def newGenerationItems (generationId : Nat) (qs : List Question)
    (sourceIds : List Nat) : List GenerationItem :=
  qs.map (fun q =>
    { generationId := generationId, questionId := q.id
      itemType := q.questionData.qtype
      itemTitle := extractItemTitle q.questionData
      difficulty := (q.questionData.difficulty).getD "medium"
      derivedFromSources := sourceIds : GenerationItem })

def createGenerationItems (st : DbState) (generationId : Nat)
    (qs : List Question) (sourceIds : List Nat) :
    DbState × List GenerationItem :=
  let items := newGenerationItems generationId qs sourceIds
  ({ st with generationItems := st.generationItems ++ items }, items)

/-- Embeds `saveQuestion(questionId)`: sets `is_saved = true` on the matching row
and touches nothing else. -/
def saveQuestion (st : DbState) (qid : Nat) : DbState :=
  { st with
    questions := st.questions.map
      (fun q => if q.id == qid then { q with isSaved := true } else q) }


/-! ## Completion-service call and response handling
(`FileProcessingService.generateAIContent`)

The network exchange is abstracted by its observable outcome: an HTTP-level
failure message, or a response body that either fails `JSON.parse`
(`Option.none`) or parses into the four typed collections. -/

structure ParsedResponse where
  flashcards : List QData
  multipleChoice : List QData
  openEnded : List QData
  summaries : List QData
deriving DecidableEq, Repr

structure AIResult where
  generated : Nat
  content : List QData
  breakdown : Breakdown
deriving DecidableEq, Repr

/-- Embeds `generateAIContent(topicName, extractedContent, apiKey)`: joins the
source texts, fails on empty input, on an HTTP error, on an unparseable
response, and on a parsed response whose four collections are all empty;
otherwise flattens the collections into the result, with
`generated = allContent.length`. -/
def fpGenerateAIContent (texts : List String)
    (response : Except String (Option ParsedResponse)) :
    Except String AIResult :=
  let combinedText := String.intercalate "\n\n" texts
  if (jsTrim combinedText).isEmpty then
    .error "No content available for AI processing"
  else
    match response with
    | .error e => .error ("OpenAI API error: " ++ e)
    | .ok none => .error "Failed to parse AI response. Please try again."
    | .ok (some pr) =>
      let allContent :=
        pr.flashcards ++ pr.multipleChoice ++ pr.openEnded ++ pr.summaries
      if allContent.length == 0 then
        .error "No content was generated. Please try again."
      else
        .ok { generated := allContent.length, content := allContent
              breakdown :=
                { flashcards := pr.flashcards.length
                  multipleChoice := pr.multipleChoice.length
                  openEnded := pr.openEnded.length
                  summaries := pr.summaries.length } }

/-! ## Generation workflows

The bulk (`generateAIContent`) and selective
(`generateAIContentFromSources`) service methods share their try/catch
body: create the `processing` Generation, call the completion service, and
either persist questions + generation items and finalize to `completed`,
or finalize to `failed` with the error message and rethrow.  `gid` and
`firstQid` are the fresh row ids the database assigns; `now` the clock
reading used for `completed_at`. -/

structure GenRunResult where
  generated : Nat
  breakdown : Breakdown
  generationId : Nat
deriving DecidableEq, Repr

def runGenerationCore (st : DbState) (topicId gid firstQid now : Nat)
    (gtype : String) (resolvedIds : List Nat) (texts : List String)
    (response : Except String (Option ParsedResponse)) :
    DbState × Except String GenRunResult :=
  let (st1, gen) := createGeneration st gid topicId gtype resolvedIds
    "processing"
  match fpGenerateAIContent texts response with
  | .error e =>
    (updateGeneration st1 gen.id
      { status := some "failed", errorMessage := some e
        completedAt := some now },
     .error e)
  | .ok ai =>
    let (st2, qs) := addQuestionsWithGeneration st1 topicId ai.content
      gen.id resolvedIds firstQid
    let (st3, _items) := createGenerationItems st2 gen.id qs resolvedIds
    let st4 := updateGeneration st3 gen.id
      { status := some "completed", itemsGenerated := some ai.generated
        breakdown := some ai.breakdown, completedAt := some now
        processingTimeMs := some 0 }
    (st4, .ok { generated := ai.generated, breakdown := ai.breakdown
                generationId := gen.id })

/-- Embeds `generateAIContent(topicId)` (bulk): every source of the topic is the
input set; aborts before creating any Generation when the topic has no
sources. -/
def generateAIContentBulk (st : DbState) (topicId : Nat)
    (response : Except String (Option ParsedResponse))
    (gid firstQid now : Nat) : DbState × Except String GenRunResult :=
  let sources := getSources st topicId
  let sourceIds := sources.map Source.id
  if sources.isEmpty then
    (st, .error "No sources available for this topic. Please upload content first.")
  else
    let kb := getKnowledgeBase st topicId
    runGenerationCore st topicId gid firstQid now "bulk" sourceIds
      (kb.map KBEntry.content) response

/-- The resolution step of `generateAIContentFromSources`: the caller's
ids filtered to those owned by the topic, in caller order. -/
def resolveSelectiveSourceIds (st : DbState) (topicId : Nat)
    (sourceIds : List Nat) : List Nat :=
  sourceIds.filter (fun i => (getSources st topicId).any (fun s => s.id == i))

/-- Embeds `generateAIContentFromSources(topicId, sourceIds)` (selective): ids
that do not belong to the topic are dropped without error; an empty
resolved set or an empty filtered knowledge base aborts before creating
any Generation. -/
def generateAIContentFromSources (st : DbState) (topicId : Nat)
    (sourceIds : List Nat)
    (response : Except String (Option ParsedResponse))
    (gid firstQid now : Nat) : DbState × Except String GenRunResult :=
  let validSourceIds := resolveSelectiveSourceIds st topicId sourceIds
  if validSourceIds.isEmpty then
    (st, .error "No valid sources found for the selected items.")
  else
    let filteredKB := getKnowledgeBaseBySourceIds st topicId validSourceIds
    if filteredKB.isEmpty then
      (st, .error "No content found for the selected sources.")
    else
      runGenerationCore st topicId gid firstQid now "selective"
        validSourceIds (filteredKB.map KBEntry.content) response

/-- Embeds `processDirectTextInput(topicId, textContent, promptTitle)` (generation
part): the completion service is called before any Generation exists; only
on success is a `direct_text` Generation created, with an empty
`source_ids`, then questions and items are persisted against it and it is
finalized to `completed`. -/
def processDirectTextInput (st : DbState) (topicId : Nat) (text : String)
    (response : Except String (Option ParsedResponse))
    (gid firstQid now : Nat) : DbState × Except String GenRunResult :=
  match fpGenerateAIContent [text] response with
  | .error e => (st, .error ("Failed to process text input: " ++ e))
  | .ok ai =>
    let (st1, gen) := createGeneration st gid topicId "direct_text" []
      "processing"
    let (st2, qs) := addQuestionsWithGeneration st1 topicId ai.content
      gen.id [] firstQid
    let (st3, _items) := createGenerationItems st2 gen.id qs []
    let st4 := updateGeneration st3 gen.id
      { status := some "completed", itemsGenerated := some ai.generated
        breakdown := some ai.breakdown, completedAt := some now }
    (st4, .ok { generated := ai.generated, breakdown := ai.breakdown
                generationId := gen.id })


/-! ## Extraction strategies (FileProcessingService)

DOM traversal, PDF.js page decoding and the transcript provider are
external engines: their raw per-page / per-segment outputs enter the
embedding as parameters, and everything the service computes from them
(joining, whitespace cleanup, bracket-tag stripping, wrapping, word
counting, fallback construction) is defined from the source. -/

structure TranscriptSegment where
  text : String
  offset : Nat
  duration : Nat
deriving DecidableEq, Repr

/-- Models `s.replace(/\[.*?\]/g, '')`: each lazily-matched `[...]` span
(no newline inside) is removed; an unmatched `[` is kept.  The accumulator
buffers a candidate span since its opening bracket. -/
def stripBracketsAux (l : List Char) (pending : Option (List Char)) :
    List Char :=
  match l with
  | [] =>
    match pending with
    | some acc => acc.reverse
    | none => []
  | c :: rest =>
    match pending with
    | none =>
      if c == '[' then stripBracketsAux rest (some ['['])
      else c :: stripBracketsAux rest none
    | some acc =>
      if c == ']' then stripBracketsAux rest none
      else if c == '\n' then
        acc.reverse ++ ('\n' :: stripBracketsAux rest none)
      else stripBracketsAux rest (some (c :: acc))

def stripBrackets (s : String) : String :=
  String.mk (stripBracketsAux s.toList none)

/-- The fallback placeholder `extractYouTubeTranscript` returns when no
transcript can be fetched. -/
def youtubeFallbackText (url : String) (videoId : Option String)
    (errMsg : String) : String :=
  "[YouTube Video: " ++ url ++ "]\n\nVideo ID: " ++ (videoId.getD "Unknown")
    ++ "\n\n⚠️ Transcript extraction failed: " ++ errMsg
    ++ "\n\nThis video may not have captions available, or they may be "
    ++ "auto-generated and restricted. \n\nTo use this content:\n"
    ++ "1. Watch the video and manually add key points below\n"
    ++ "2. Or try a different video with available captions\n\n"
    ++ "Manual Notes Section:\n- [Add main concepts from the video]\n"
    ++ "- [Add important explanations]  \n"
    ++ "- [Add examples or case studies]\n"
    ++ "- [Add any formulas or definitions]\n\n"
    ++ "This content will be used by the AI to generate study materials."

def youtubeFallback (url : String) (videoId : Option String)
    (errMsg : String) : ExtractedContent :=
  let fallbackText := youtubeFallbackText url videoId errMsg
  { ctype := "youtube"
    source := "YouTube Video: " ++ (videoId.getD "Unknown")
    extractedText := fallbackText
    metadata :=
      { wordCount := jsWordCount fallbackText
        hasTranscript := some false
        extractionError := some errMsg } }

/-- Embeds `extractYouTubeTranscript(url)`: `videoId` is the outcome of the URL
parser and `fetchResult` the transcript provider's outcome (error covers
both fetch failure and the 30s timeout).  Every failure mode — bad URL,
fetch error, empty segment list — is caught inside the method and turned
into the fallback placeholder; the method never raises. -/
def extractYouTubeTranscript (url : String) (videoId : Option String)
    (fetchResult : Except String (List TranscriptSegment)) :
    ExtractedContent :=
  match videoId with
  | none =>
    youtubeFallback url none "Invalid YouTube URL - could not extract video ID"
  | some vid =>
    match fetchResult with
    | .error e => youtubeFallback url (some vid) e
    | .ok segs =>
      if segs.isEmpty then
        youtubeFallback url (some vid) "No transcript available for this video"
      else
        let fullText := jsTrim (jsCollapseWs (stripBrackets
          (String.intercalate " " (segs.map TranscriptSegment.text))))
        { ctype := "youtube"
          source := "YouTube Video: " ++ vid
          extractedText := fullText
          metadata :=
            { wordCount := jsWordCount fullText
              hasTranscript := some true } }

/-- The prompt-framing wrapper `processWebURL` puts around the scraped
text before returning it as `extractedText`. -/
def webProcessedText (title url extractedAt cleanedText : String) : String :=
  "[Website: " ++ title ++ "]\n\nURL: " ++ url ++ "\nExtracted: "
    ++ extractedAt ++ "\n\nContent:\n" ++ cleanedText
    ++ "\n\nThis web content should be analyzed for:\n"
    ++ "- Key concepts and main ideas\n"
    ++ "- Important facts and information\n"
    ++ "- Educational content and explanations\n"
    ++ "- Structured knowledge and insights\n"
    ++ "- Actionable information and examples"

/-- Embeds `processWebURL(url)`: `urlValid` is the `new URL(url)` outcome,
`isYouTubeHost` the hostname test, `webFetch` the proxied fetch outcome
(`.error` for a network failure or non-2xx status, `.ok none` for a
response with no `contents`), and `cleanedText` the text the DOM walk
extracts from the fetched page.  Unlike the YouTube path, every failure is
rethrown to the caller as `Failed to process website: ...` — there is no
placeholder fallback for an unreachable page. -/
def processWebURL (url : String) (urlValid : Bool) (isYouTubeHost : Bool)
    (videoId : Option String)
    (ytFetch : Except String (List TranscriptSegment))
    (webFetch : Except String (Option String)) (title : String)
    (cleanedTextRaw : String) (extractedAt : String) :
    Except String ExtractedContent :=
  if !urlValid then
    .error "Failed to process website: Invalid URL format. Please enter a valid website URL."
  else if isYouTubeHost then
    .ok (extractYouTubeTranscript url videoId ytFetch)
  else
    match webFetch with
    | .error e =>
      .error ("Failed to process website: Unable to access the website. This may be due to CORS restrictions or the site being unavailable. Error: " ++ e)
    | .ok none =>
      .error "Failed to process website: No content received from the website."
    | .ok (some _html) =>
      let cleanedText := jsTrim (jsCollapseWs cleanedTextRaw)
      if cleanedText.length < 50 then
        .error "Failed to process website: Unable to extract meaningful content from the webpage. The page may be mostly images, videos, or protected content."
      else
        .ok { ctype := "web"
              source := title
              extractedText := webProcessedText title url extractedAt
                cleanedText
              metadata := { wordCount := jsWordCount cleanedText } }

/-- The per-page texts of a PDF joined and cleaned exactly as
`extractTextFromPDF` builds `fullText` (each page text plus a blank line,
whitespace collapsed, trimmed). -/
def pdfCoreText (pageTexts : List String) : String :=
  jsTrim (jsCollapseWs (String.join (pageTexts.map (fun t => t ++ "\n\n"))))

/-- The study-material wrapper `extractTextFromPDF` returns as
`extractedText`. -/
def pdfProcessedText (fileName : String) (numPages : Nat)
    (fullText : String) : String :=
  "[PDF Document: " ++ fileName ++ "]\n\nDocument Structure: "
    ++ toString numPages ++ " pages\n\nContent:\n" ++ fullText
    ++ "\n\nThis PDF document should be analyzed for:\n"
    ++ "- Key concepts and definitions\n"
    ++ "- Main topics and subtopics\n"
    ++ "- Important facts and details\n"
    ++ "- Structured information and diagrams\n"
    ++ "- Educational content and examples"

/-- Embeds `extractTextFromPDF(file)`: `pageTexts` are the PDF.js per-page item
strings already joined per page.  Note `metadata.wordCount` is computed
over the cleaned core `fullText`, while `extractedText` is the framed
`processedText` around it. -/
def extractTextFromPDF (fileName : String) (numPages : Nat)
    (pageTexts : List String) : Except String ExtractedContent :=
  let fullText := pdfCoreText pageTexts
  if (jsTrim fullText).isEmpty then
    .error "Failed to extract text from PDF: No readable text content found in PDF"
  else
    .ok { ctype := "document"
          source := fileName
          extractedText := pdfProcessedText fileName numPages fullText
          metadata :=
            { wordCount := jsWordCount fullText, pages := some numPages } }

/-- The `extractedContent` object `processTextContent` builds for pasted
text: the text is stored verbatim and `wordCount` is its
`split(/\s+/).length`. -/
def processTextContentExtracted (contentText sourceName : String) :
    ExtractedContent :=
  { ctype := "text"
    source := sourceName
    extractedText := contentText
    metadata :=
      { wordCount := jsWordCount contentText, isTextContent := some true } }

/-- Embeds `addToKnowledgeBase(topicId, content, documentId)`: inserts one
`knowledge_base` row storing the extracted text and the metadata bag. -/
def addToKnowledgeBase (st : DbState) (kid topicId : Nat)
    (c : ExtractedContent) (documentId : Option Nat) : DbState × KBEntry :=
  let k : KBEntry :=
    { id := kid, topicId := topicId, documentId := documentId
      content := c.extractedText, metadata := some c.metadata }
  ({ st with knowledgeBase := st.knowledgeBase ++ [k] }, k)

/-- Embeds `processTextContent(topicId, contentText, sourceName)`: document row,
knowledge-base row and source row for pasted text (`docId`, `kid`, `sid`
are the database-assigned fresh ids). -/
def processTextContent (st : DbState) (topicId : Nat)
    (contentText sourceName : String) (docId kid sid : Nat) :
    DbState × KBEntry × Source :=
  let ec := processTextContentExtracted contentText sourceName
  let (st1, k) := addToKnowledgeBase st kid topicId ec (some docId)
  let src : Source :=
    { id := sid, topicId := topicId, documentId := some docId
      sourceType := "text", knowledgeBaseId := some k.id }
  ({ st1 with sources := st1.sources ++ [src] }, k, src)

/-! ## Blob storage and ingestion compensation -/

structure StorageState where
  blobs : List String
deriving DecidableEq, Repr

def storagePut (ss : StorageState) (path : String) : StorageState :=
  { blobs := ss.blobs ++ [path] }

def storageRemove (ss : StorageState) (path : String) : StorageState :=
  { blobs := ss.blobs.filter (fun q => q != path) }

/-- Models how `signedReadUrl` resolves only for blobs present in the store. -/
def signedReadUrlAvailable (ss : StorageState) (path : String) : Bool :=
  ss.blobs.contains path

/-- Embeds `uploadFile(file, topicId)`, reduced to its storage/persistence
skeleton: upload the blob, then insert the document row
(`simple_insert_document`); if the insert fails, the uploaded blob is
removed before the wrapped insert error is rethrown. -/
def uploadFile (ss : StorageState) (filePath : String)
    (uploadResult : Except String Unit) (insertResult : Except String Nat) :
    StorageState × Except String Nat :=
  match uploadResult with
  | .error e => (ss, .error ("Failed to upload file: " ++ e))
  | .ok _ =>
    let ss1 := storagePut ss filePath
    match insertResult with
    | .ok docId => (ss1, .ok docId)
    | .error e =>
      (storageRemove ss1 filePath, .error ("Failed to save document: " ++ e))

/-- The storage/persistence skeleton of `processYouTubeURL`: the
transcript blob is uploaded first, the document row only inserted
afterwards, and a failing insert removes the uploaded blob before the
error is rethrown (the RLS special case rewords the message but performs
the same compensation). -/
def processYouTubeIngest (ss : StorageState) (filePath : String)
    (uploadResult : Except String Unit) (insertResult : Except String Nat) :
    StorageState × Except String Nat :=
  match uploadResult with
  | .error e => (ss, .error ("Failed to upload transcript: " ++ e))
  | .ok _ =>
    let ss1 := storagePut ss filePath
    match insertResult with
    | .ok docId => (ss1, .ok docId)
    | .error e =>
      (storageRemove ss1 filePath,
       .error ("Failed to save document metadata: " ++ e))


/-! ## Invariant predicates -/

/-- Attribution containment: every generation item's
`derived_from_sources` is a subset of its parent Generation's
`source_ids`. -/
def AttributionOK (st : DbState) : Prop :=
  ∀ gi ∈ st.generationItems, ∀ g ∈ st.generations,
    gi.generationId = g.id → ∀ x ∈ gi.derivedFromSources, x ∈ g.sourceIds

/-- A question with its mutable `is_saved` flag blanked out — equality
under `eraseSaved` says two rows agree on every immutable field. -/
def eraseSaved (q : Question) : Question :=
  { q with isSaved := false }


/-! # Theorems -/

/-! ## Small helper lemmas -/

theorem contains_filter_bne_self (l : List String) (p : String) :
    (l.filter (fun q => q != p)).contains p = false := by
  induction l with
  | nil => rfl
  | cons a t ih =>
    simp only [List.filter_cons]
    by_cases h : a = p
    · simp [h, ih]
    · simp [List.contains_cons, bne_eq_false_iff_eq, h, Ne.symm h, ih]

theorem applyGenUpdates_id (g : Generation) (u : GenUpdates) :
    (applyGenUpdates g u).id = g.id := rfl

theorem applyGenUpdates_sourceIds (g : Generation) (u : GenUpdates) :
    (applyGenUpdates g u).sourceIds = g.sourceIds := rfl

theorem map_update_append_fresh (gens : List Generation) (gen : Generation)
    (gid : Nat) (u : GenUpdates) (hg : ∀ g ∈ gens, g.id ≠ gid)
    (hgen : gen.id = gid) :
    ((gens ++ [gen]).map
      (fun g => if g.id == gid then applyGenUpdates g u else g))
      = gens ++ [applyGenUpdates gen u] := by
  rw [List.map_append]
  congr 1
  · have h : ∀ g ∈ gens,
        (fun g => if g.id == gid then applyGenUpdates g u else g) g
          = id g := by
      intro g hgmem
      simp [hg g hgmem]
    rw [List.map_congr_left h, List.map_id]
  · simp [hgen]

/-! ## Workflow state characterizations -/

theorem runGenerationCore_error_spec (st : DbState)
    (topicId gid firstQid now : Nat) (gtype : String) (ids : List Nat)
    (texts : List String) (resp : Except String (Option ParsedResponse))
    (e : String) (hfp : fpGenerateAIContent texts resp = Except.error e)
    (hfresh : ∀ g ∈ st.generations, g.id ≠ gid) :
    (runGenerationCore st topicId gid firstQid now gtype ids texts resp).1
      = { st with generations := st.generations ++
          [{ id := gid, topicId := topicId, generationType := gtype
             sourceIds := ids, status := "failed", itemsGenerated := none
             breakdown := none, errorMessage := some e
             processingTimeMs := none, completedAt := some now }] } ∧
    (runGenerationCore st topicId gid firstQid now gtype ids texts resp).2
      = Except.error e := by
  unfold runGenerationCore
  simp only [createGeneration, hfp, updateGeneration]
  constructor
  · congr 1
    rw [map_update_append_fresh st.generations _ gid _ hfresh rfl]
    rfl
  · trivial

theorem runGenerationCore_ok_spec (st : DbState)
    (topicId gid firstQid now : Nat) (gtype : String) (ids : List Nat)
    (texts : List String) (resp : Except String (Option ParsedResponse))
    (ai : AIResult) (hfp : fpGenerateAIContent texts resp = Except.ok ai)
    (hfresh : ∀ g ∈ st.generations, g.id ≠ gid) :
    (runGenerationCore st topicId gid firstQid now gtype ids texts resp).1
      = { st with
          generations := st.generations ++
            [{ id := gid, topicId := topicId, generationType := gtype
               sourceIds := ids, status := "completed"
               itemsGenerated := some ai.generated
               breakdown := some ai.breakdown, errorMessage := none
               processingTimeMs := some 0, completedAt := some now }]
          questions := st.questions ++
            newQuestionRows topicId ai.content gid ids firstQid
          generationItems := st.generationItems ++
            newGenerationItems gid
              (newQuestionRows topicId ai.content gid ids firstQid) ids } ∧
    (runGenerationCore st topicId gid firstQid now gtype ids texts resp).2
      = Except.ok { generated := ai.generated, breakdown := ai.breakdown
                    generationId := gid } := by
  unfold runGenerationCore
  simp only [createGeneration, hfp, updateGeneration,
    addQuestionsWithGeneration, createGenerationItems]
  constructor
  · congr 1
    rw [map_update_append_fresh st.generations _ gid _ hfresh rfl]
    rfl
  · trivial

theorem processDirectTextInput_error_spec (st : DbState) (topicId : Nat)
    (text : String) (resp : Except String (Option ParsedResponse))
    (gid firstQid now : Nat) (e : String)
    (hfp : fpGenerateAIContent [text] resp = Except.error e) :
    processDirectTextInput st topicId text resp gid firstQid now
      = (st, Except.error ("Failed to process text input: " ++ e)) := by
  unfold processDirectTextInput
  simp only [hfp]

theorem processDirectTextInput_ok_spec (st : DbState) (topicId : Nat)
    (text : String) (resp : Except String (Option ParsedResponse))
    (gid firstQid now : Nat) (ai : AIResult)
    (hfp : fpGenerateAIContent [text] resp = Except.ok ai)
    (hfresh : ∀ g ∈ st.generations, g.id ≠ gid) :
    (processDirectTextInput st topicId text resp gid firstQid now).1
      = { st with
          generations := st.generations ++
            [{ id := gid, topicId := topicId
               generationType := "direct_text"
               sourceIds := [], status := "completed"
               itemsGenerated := some ai.generated
               breakdown := some ai.breakdown, errorMessage := none
               processingTimeMs := none, completedAt := some now }]
          questions := st.questions ++
            newQuestionRows topicId ai.content gid [] firstQid
          generationItems := st.generationItems ++
            newGenerationItems gid
              (newQuestionRows topicId ai.content gid [] firstQid) [] } ∧
    (processDirectTextInput st topicId text resp gid firstQid now).2
      = Except.ok { generated := ai.generated, breakdown := ai.breakdown
                    generationId := gid } := by
  unfold processDirectTextInput
  simp only [createGeneration, hfp, updateGeneration,
    addQuestionsWithGeneration, createGenerationItems]
  constructor
  · congr 1
    rw [map_update_append_fresh st.generations _ gid _ hfresh rfl]
    rfl
  · trivial

theorem fp_ok_generated (texts : List String)
    (resp : Except String (Option ParsedResponse)) (ai : AIResult)
    (hfp : fpGenerateAIContent texts resp = Except.ok ai) :
    ai.generated = ai.content.length := by
  unfold fpGenerateAIContent at hfp
  by_cases hne : (jsTrim (String.intercalate "\n\n" texts)).isEmpty
  · simp [hne] at hfp
  · simp only [hne, Bool.false_eq_true, if_false] at hfp
    match resp with
    | .error e => simp at hfp
    | .ok none => simp at hfp
    | .ok (some pr) =>
      simp only [] at hfp
      by_cases hz : ((pr.flashcards ++ pr.multipleChoice ++ pr.openEnded ++
          pr.summaries).length == 0)
      · rw [if_pos hz] at hfp
        simp at hfp
      · rw [if_neg hz] at hfp
        simp only [Except.ok.injEq] at hfp
        rw [← hfp]

theorem mem_newQuestionRows (topicId : Nat) (qs : List QData)
    (generationId : Nat) (ids : List Nat) (firstId : Nat) (q : Question)
    (hq : q ∈ newQuestionRows topicId qs generationId ids firstId) :
    q.generationId = some generationId ∧ q.sourceAttribution = ids ∧
    q.topicId = topicId ∧ q.isSaved = false := by
  simp only [newQuestionRows, List.mem_map] at hq
  obtain ⟨p, _, rfl⟩ := hq
  exact ⟨rfl, rfl, rfl, rfl⟩

theorem length_newQuestionRows (topicId : Nat) (qs : List QData)
    (generationId : Nat) (ids : List Nat) (firstId : Nat) :
    (newQuestionRows topicId qs generationId ids firstId).length
      = qs.length := by
  simp [newQuestionRows]

theorem mem_newGenerationItems (generationId : Nat) (qs : List Question)
    (ids : List Nat) (gi : GenerationItem)
    (hgi : gi ∈ newGenerationItems generationId qs ids) :
    gi.generationId = generationId ∧ gi.derivedFromSources = ids := by
  simp only [newGenerationItems, List.mem_map] at hgi
  obtain ⟨q, _, rfl⟩ := hgi
  exact ⟨rfl, rfl⟩


/-! ## Attribution helper lemmas -/

theorem runGenerationCore_attribution (st : DbState)
    (topicId gid firstQid now : Nat) (gtype : String) (ids : List Nat)
    (texts : List String) (resp : Except String (Option ParsedResponse))
    (hA : AttributionOK st)
    (hg : ∀ g ∈ st.generations, g.id ≠ gid)
    (hi : ∀ gi ∈ st.generationItems, gi.generationId ≠ gid) :
    AttributionOK
      (runGenerationCore st topicId gid firstQid now gtype ids texts
        resp).1 := by
  cases hfp : fpGenerateAIContent texts resp with
  | error e =>
    obtain ⟨h1, -⟩ := runGenerationCore_error_spec st topicId gid firstQid
      now gtype ids texts resp e hfp hg
    rw [h1]
    intro gi hgi g hgmem hid x hx
    rcases List.mem_append.mp hgmem with hgm | hgm
    · exact hA gi hgi g hgm hid x hx
    · simp only [List.mem_singleton] at hgm
      subst hgm
      exact absurd hid (hi gi hgi)
  | ok ai =>
    obtain ⟨h1, -⟩ := runGenerationCore_ok_spec st topicId gid firstQid
      now gtype ids texts resp ai hfp hg
    rw [h1]
    intro gi hgi g hgmem hid x hx
    rcases List.mem_append.mp hgi with hgiO | hgiN
    · rcases List.mem_append.mp hgmem with hgm | hgm
      · exact hA gi hgiO g hgm hid x hx
      · simp only [List.mem_singleton] at hgm
        subst hgm
        exact absurd hid (hi gi hgiO)
    · obtain ⟨hgid, hder⟩ := mem_newGenerationItems _ _ _ _ hgiN
      rcases List.mem_append.mp hgmem with hgm | hgm
      · have hgidg : g.id = gid := by rw [← hid, hgid]
        exact absurd hgidg (hg g hgm)
      · simp only [List.mem_singleton] at hgm
        subst hgm
        rw [hder] at hx
        exact hx

theorem runGenerationCore_exact_attribution (st : DbState)
    (topicId gid firstQid now : Nat) (gtype : String) (ids : List Nat)
    (texts : List String) (resp : Except String (Option ParsedResponse))
    (hg : ∀ g ∈ st.generations, g.id ≠ gid)
    (hi : ∀ gi ∈ st.generationItems, gi.generationId ≠ gid)
    (hq : ∀ q ∈ st.questions, q.generationId ≠ some gid) :
    (∀ gi ∈ (runGenerationCore st topicId gid firstQid now gtype ids texts
        resp).1.generationItems, gi.generationId = gid →
      gi.derivedFromSources = ids) ∧
    (∀ q ∈ (runGenerationCore st topicId gid firstQid now gtype ids texts
        resp).1.questions, q.generationId = some gid →
      q.sourceAttribution = ids) ∧
    (∀ g ∈ (runGenerationCore st topicId gid firstQid now gtype ids texts
        resp).1.generations, g.id = gid → g.sourceIds = ids) := by
  cases hfp : fpGenerateAIContent texts resp with
  | error e =>
    obtain ⟨h1, -⟩ := runGenerationCore_error_spec st topicId gid firstQid
      now gtype ids texts resp e hfp hg
    rw [h1]
    refine ⟨?_, ?_, ?_⟩
    · intro gi hgi hid
      exact absurd hid (hi gi hgi)
    · intro q hqm hid
      exact absurd hid (hq q hqm)
    · intro g hgmem hid
      rcases List.mem_append.mp hgmem with hgm | hgm
      · exact absurd hid (hg g hgm)
      · simp only [List.mem_singleton] at hgm
        subst hgm
        rfl
  | ok ai =>
    obtain ⟨h1, -⟩ := runGenerationCore_ok_spec st topicId gid firstQid
      now gtype ids texts resp ai hfp hg
    rw [h1]
    refine ⟨?_, ?_, ?_⟩
    · intro gi hgi hid
      rcases List.mem_append.mp hgi with hgiO | hgiN
      · exact absurd hid (hi gi hgiO)
      · exact (mem_newGenerationItems _ _ _ _ hgiN).2
    · intro q hqm hid
      rcases List.mem_append.mp hqm with hqO | hqN
      · exact absurd hid (hq q hqO)
      · exact (mem_newQuestionRows _ _ _ _ _ _ hqN).2.1
    · intro g hgmem hid
      rcases List.mem_append.mp hgmem with hgm | hgm
      · exact absurd hid (hg g hgm)
      · simp only [List.mem_singleton] at hgm
        subst hgm
        rfl

theorem processDirectTextInput_attribution (st : DbState) (topicId : Nat)
    (text : String) (resp : Except String (Option ParsedResponse))
    (gid firstQid now : Nat)
    (hA : AttributionOK st)
    (hg : ∀ g ∈ st.generations, g.id ≠ gid)
    (hi : ∀ gi ∈ st.generationItems, gi.generationId ≠ gid) :
    AttributionOK
      (processDirectTextInput st topicId text resp gid firstQid now).1 := by
  cases hfp : fpGenerateAIContent [text] resp with
  | error e =>
    rw [processDirectTextInput_error_spec st topicId text resp gid firstQid
      now e hfp]
    exact hA
  | ok ai =>
    obtain ⟨h1, -⟩ := processDirectTextInput_ok_spec st topicId text resp
      gid firstQid now ai hfp hg
    rw [h1]
    intro gi hgi g hgmem hid x hx
    rcases List.mem_append.mp hgi with hgiO | hgiN
    · rcases List.mem_append.mp hgmem with hgm | hgm
      · exact hA gi hgiO g hgm hid x hx
      · simp only [List.mem_singleton] at hgm
        subst hgm
        exact absurd hid (hi gi hgiO)
    · obtain ⟨hgid, hder⟩ := mem_newGenerationItems _ _ _ _ hgiN
      rcases List.mem_append.mp hgmem with hgm | hgm
      · have hgidg : g.id = gid := by rw [← hid, hgid]
        exact absurd hgidg (hg g hgm)
      · simp only [List.mem_singleton] at hgm
        subst hgm
        rw [hder] at hx
        exact hx

theorem processDirectTextInput_exact_attribution (st : DbState)
    (topicId : Nat) (text : String)
    (resp : Except String (Option ParsedResponse)) (gid firstQid now : Nat)
    (hg : ∀ g ∈ st.generations, g.id ≠ gid)
    (hi : ∀ gi ∈ st.generationItems, gi.generationId ≠ gid)
    (hq : ∀ q ∈ st.questions, q.generationId ≠ some gid) :
    (∀ gi ∈ (processDirectTextInput st topicId text resp gid firstQid
        now).1.generationItems, gi.generationId = gid →
      gi.derivedFromSources = ([] : List Nat)) ∧
    (∀ q ∈ (processDirectTextInput st topicId text resp gid firstQid
        now).1.questions, q.generationId = some gid →
      q.sourceAttribution = ([] : List Nat)) ∧
    (∀ g ∈ (processDirectTextInput st topicId text resp gid firstQid
        now).1.generations, g.id = gid → g.sourceIds = ([] : List Nat)) := by
  cases hfp : fpGenerateAIContent [text] resp with
  | error e =>
    rw [processDirectTextInput_error_spec st topicId text resp gid firstQid
      now e hfp]
    refine ⟨?_, ?_, ?_⟩
    · intro gi hgi hid
      exact absurd hid (hi gi hgi)
    · intro q hqm hid
      exact absurd hid (hq q hqm)
    · intro g hgmem hid
      exact absurd hid (hg g hgmem)
  | ok ai =>
    obtain ⟨h1, -⟩ := processDirectTextInput_ok_spec st topicId text resp
      gid firstQid now ai hfp hg
    rw [h1]
    refine ⟨?_, ?_, ?_⟩
    · intro gi hgi hid
      rcases List.mem_append.mp hgi with hgiO | hgiN
      · exact absurd hid (hi gi hgiO)
      · exact (mem_newGenerationItems _ _ _ _ hgiN).2
    · intro q hqm hid
      rcases List.mem_append.mp hqm with hqO | hqN
      · exact absurd hid (hq q hqO)
      · exact (mem_newQuestionRows _ _ _ _ _ _ hqN).2.1
    · intro g hgmem hid
      rcases List.mem_append.mp hgmem with hgm | hgm
      · exact absurd hid (hg g hgm)
      · simp only [List.mem_singleton] at hgm
        subst hgm
        rfl


/-! ## C9: spaced-repetition interval policy -/

/-- C9 counterexample: reviewing a flashcard with a stored interval of
1 day and marking it known yields an interval of 2.5 days, not the
doubled 2 days the claim states. -/
theorem C9_counterexample :
    (updateFlashcardProgress (some ⟨1, 1⟩) true).interval = 5 / 2 ∧
    (updateFlashcardProgress (some ⟨1, 1⟩) true).interval ≠ 2 := by
  constructor <;> norm_num [updateFlashcardProgress]

/-- C9 amended: when a flashcard with existing progress is marked known
its interval is multiplied by 2.5 (not doubled); marking it not known
resets the interval to 1 day; a first-ever review stores interval 1 and
review count 1 regardless of the outcome. -/
theorem C9_amended (e : FlashcardProgress) (b : Bool) :
    (updateFlashcardProgress (some e) true).interval = e.interval * (5 / 2) ∧
    (updateFlashcardProgress (some e) false).interval = 1 ∧
    (updateFlashcardProgress none b).interval = 1 ∧
    (updateFlashcardProgress none b).reviews = 1 ∧
    (updateFlashcardProgress (some e) b).reviews = e.reviews + 1 := by
  refine ⟨?_, ?_, ?_, ?_, ?_⟩ <;> simp [updateFlashcardProgress]

/-! ## C3: zero-item completion-service response -/

/-- C3 counterexample: a response that parses as well-formed structure but
contains zero total items is rejected with a generation error, not
treated as a success with `itemsGenerated = 0`. -/
theorem C3_counterexample :
    fpGenerateAIContent ["some text"]
      (Except.ok (some ⟨[], [], [], []⟩)) =
      Except.error "No content was generated. Please try again." := by rfl

/-- C3 amended: a response that fails to parse is a generation error, and
a well-formed response with zero total items is also a generation error
(`No content was generated`); a successful result always carries at least
one item, with `generated` equal to the total item count of the four
collections. -/
theorem C3_amended (texts : List String) (pr : ParsedResponse)
    (hne : (jsTrim (String.intercalate "\n\n" texts)).isEmpty = false) :
    fpGenerateAIContent texts (Except.ok none) =
      Except.error "Failed to parse AI response. Please try again." ∧
    (pr.flashcards.length + pr.multipleChoice.length + pr.openEnded.length +
        pr.summaries.length = 0 →
      fpGenerateAIContent texts (Except.ok (some pr)) =
        Except.error "No content was generated. Please try again.") ∧
    (∀ r, fpGenerateAIContent texts (Except.ok (some pr)) = Except.ok r →
      0 < r.generated ∧
      r.generated = pr.flashcards.length + pr.multipleChoice.length +
        pr.openEnded.length + pr.summaries.length) := by
  refine ⟨?_, ?_, ?_⟩
  · simp [fpGenerateAIContent, hne]
  · intro h0
    have h1 : pr.flashcards = [] := List.length_eq_zero.mp (by omega)
    have h2 : pr.multipleChoice = [] := List.length_eq_zero.mp (by omega)
    have h3 : pr.openEnded = [] := List.length_eq_zero.mp (by omega)
    have h4 : pr.summaries = [] := List.length_eq_zero.mp (by omega)
    simp [fpGenerateAIContent, hne, h1, h2, h3, h4]
  · intro r hr
    simp [fpGenerateAIContent, hne] at hr
    by_cases h1 : pr.flashcards = [] ∧ pr.multipleChoice = [] ∧
        pr.openEnded = [] ∧ pr.summaries = []
    · rw [if_pos h1] at hr
      simp at hr
    · rw [if_neg h1] at hr
      simp only [Except.ok.injEq] at hr
      subst hr
      constructor
      · by_contra hz
        push_neg at hz
        simp only [Nat.le_zero] at hz
        exact h1 ⟨List.length_eq_zero.mp (by omega),
          List.length_eq_zero.mp (by omega),
          List.length_eq_zero.mp (by omega),
          List.length_eq_zero.mp (by omega)⟩
      · simp only []
        omega

/-- Witness for C3 amended at a concrete nonempty input. -/
theorem C3_witness :
    (jsTrim (String.intercalate "\n\n" ["x"])).isEmpty = false ∧
    (fpGenerateAIContent ["x"] (Except.ok none) =
      Except.error "Failed to parse AI response. Please try again.") :=
  ⟨by decide, (C3_amended ["x"] ⟨[], [], [], []⟩ (by decide)).1⟩

/-! ## C6: compensation on partial ingestion failure -/

/-- C6: when the document insert fails after a successful blob upload —
in `uploadFile` and in `processYouTubeURL` alike — the uploaded blob is
removed before the call returns, so `signedReadUrl` cannot reach it
afterwards, and the wrapped persistence error (carrying the original
message) is what propagates. -/
theorem C6_compensation (ss : StorageState) (filePath e : String) :
    (uploadFile ss filePath (Except.ok ()) (Except.error e)).2 =
      Except.error ("Failed to save document: " ++ e) ∧
    signedReadUrlAvailable
      (uploadFile ss filePath (Except.ok ()) (Except.error e)).1
      filePath = false ∧
    (processYouTubeIngest ss filePath (Except.ok ()) (Except.error e)).2 =
      Except.error ("Failed to save document metadata: " ++ e) ∧
    signedReadUrlAvailable
      (processYouTubeIngest ss filePath (Except.ok ()) (Except.error e)).1
      filePath = false := by
  refine ⟨rfl, ?_, rfl, ?_⟩ <;>
    simp [uploadFile, processYouTubeIngest, signedReadUrlAvailable,
      storageRemove, storagePut, contains_filter_bne_self]


/-! ## C7: extraction fallback for unreachable network sources -/

/-- C7 counterexample: an unreachable web page is NOT recovered locally —
`processWebURL` rethrows the fetch failure to its caller instead of
returning a placeholder `ExtractedContent`. -/
theorem C7_counterexample :
    processWebURL "https://example.com/page" true false none
      (Except.error "t") (Except.error "fetch failed") "Title" "" "ts" =
      Except.error ("Failed to process website: Unable to access the website. This may be due to CORS restrictions or the site being unavailable. Error: fetch failed") := by
  rfl

/-- C7 amended: the fallback policy holds for the video-transcript path
only — `extractYouTubeTranscript` converts every failure (fetch error,
empty segment list, unparseable URL) into a successful `ExtractedContent`
whose metadata carries `hasTranscript = false` and whose text is the
non-empty labeled placeholder, and never throws; an unreachable web page,
by contrast, is rethrown past the extraction layer by `processWebURL` as a
`Failed to process website` error. -/
theorem C7_amended (url v e e2 title raw ts : String)
    (fr : Except String (List TranscriptSegment)) :
    extractYouTubeTranscript url (some v) (Except.error e) =
      youtubeFallback url (some v) e ∧
    extractYouTubeTranscript url (some v) (Except.ok []) =
      youtubeFallback url (some v) "No transcript available for this video" ∧
    extractYouTubeTranscript url none fr =
      youtubeFallback url none
        "Invalid YouTube URL - could not extract video ID" ∧
    (youtubeFallback url (some v) e).metadata.hasTranscript = some false ∧
    (youtubeFallback url (some v) e).extractedText =
      youtubeFallbackText url (some v) e ∧
    0 < (youtubeFallback url (some v) e).extractedText.length ∧
    processWebURL url true false (some v) fr (Except.error e2) title raw ts =
      Except.error ("Failed to process website: Unable to access the website. This may be due to CORS restrictions or the site being unavailable. Error: " ++ e2) := by
  refine ⟨rfl, rfl, rfl, rfl, rfl, ?_, rfl⟩
  have h16 : ("[YouTube Video: " : String).length = 16 := by decide
  simp only [youtubeFallback, youtubeFallbackText, String.length_append, h16]
  omega

/-! ## C8: uniform word count -/

/-- C8 counterexample: the PDF strategy computes `metadata.wordCount` over
the cleaned page text (2 tokens for a one-page "hello world" PDF) while
its final `extractedText` is the study-material wrapper whose whitespace
token count is 42 — so `wordCount` is not the token count of the final
extracted text. -/
theorem C8_counterexample :
    (extractTextFromPDF "a.pdf" 1 ["hello world"]).toOption.map
      (fun ec => (ec.metadata.wordCount, jsWordCount ec.extractedText)) =
      some (2, 42) ∧ (2 : Nat) ≠ 42 := by
  constructor
  · decide
  · decide

/-- C8 amended: each strategy computes `metadata.wordCount` as the
whitespace-delimited token count of its cleaned core text, which for
wrapping strategies (such as PDF) differs from the final framed
`extractedText`; for pasted text the stored text is the raw input itself,
so the count does apply to it, and ingesting
`"Hello world, this is a test."` stores a knowledge-base entry with
`metadata.wordCount = 6`. -/
theorem C8_amended (s name fn : String) (n : Nat) (pages : List String) :
    (processTextContentExtracted s name).metadata.wordCount =
      jsWordCount (processTextContentExtracted s name).extractedText ∧
    (∀ ec, extractTextFromPDF fn n pages = Except.ok ec →
      ec.metadata.wordCount = jsWordCount (pdfCoreText pages)) ∧
    (∀ (st : DbState) (topicId docId kid sid : Nat),
      (processTextContent st topicId "Hello world, this is a test."
          "Pasted Text" docId kid sid).2.1.metadata =
        some { wordCount := 6, isTextContent := some true }) := by
  refine ⟨rfl, ?_, ?_⟩
  · intro ec hec
    by_cases h : (jsTrim (pdfCoreText pages)).isEmpty
    · simp [extractTextFromPDF, h] at hec
    · simp [extractTextFromPDF, h] at hec
      rw [← hec]
  · intro st topicId docId kid sid
    have h6 : jsWordCount "Hello world, this is a test." = 6 := by decide
    simp [processTextContent, addToKnowledgeBase,
      processTextContentExtracted, h6]

/-- Witness for C8 amended: the concrete one-page PDF satisfies the
core-text word-count equation, and the concrete pasted-text ingestion
stores wordCount 6. -/
theorem C8_witness :
    (∀ ec, extractTextFromPDF "a.pdf" 1 ["hello world"] = Except.ok ec →
      ec.metadata.wordCount = jsWordCount (pdfCoreText ["hello world"])) ∧
    (processTextContent ⟨[], [], [], [], []⟩ 1
        "Hello world, this is a test." "Pasted Text" 10 20 30).2.1.metadata =
      some { wordCount := 6, isTextContent := some true } :=
  ⟨(C8_amended "a b" "t" "a.pdf" 1 ["hello world"]).2.1,
   (C8_amended "a b" "t" "a.pdf" 1 ["hello world"]).2.2 ⟨[], [], [], [], []⟩
     1 10 20 30⟩


/-! ## C4: terminal generation status -/

/-- C4 counterexample: `updateGeneration` applies its updates
unconditionally — a subsequent update call on a Generation whose status is
already the terminal `completed` changes it back to `processing`, so the
claimed "no subsequent update call changes it" fails at the store level. -/
theorem C4_counterexample :
    ((updateGeneration
        ⟨[], [],
          [⟨7, 1, "bulk", [1], "completed", some 3, none, none, none,
            some 5⟩], [], []⟩ 7
        { status := some "processing" }).generations.map Generation.status)
      = ["processing"] := by decide

/-- C4 amended: each generation workflow finalizes the Generation it
creates exactly once per run — after the run the topic's generation list
has gained exactly one record, holding the fresh id, whose status is
terminal (`completed` on the success path, `failed` when the
completion-service call fails), and no pre-existing Generation is touched;
the direct-text path creates no Generation at all when the service call
fails.  `updateGeneration` itself, however, has no terminal-state guard,
so an out-of-workflow update call can still change a terminal status. -/
theorem C4_amended (st : DbState) (topicId : Nat) (sourceIds : List Nat)
    (resp : Except String (Option ParsedResponse)) (gid firstQid now : Nat)
    (text : String)
    (hfresh : ∀ g ∈ st.generations, g.id ≠ gid) :
    (resolveSelectiveSourceIds st topicId sourceIds ≠ [] →
      getKnowledgeBaseBySourceIds st topicId
        (resolveSelectiveSourceIds st topicId sourceIds) ≠ [] →
      ∃ gnew,
        (generateAIContentFromSources st topicId sourceIds resp gid firstQid
          now).1.generations = st.generations ++ [gnew] ∧
        gnew.id = gid ∧
        (gnew.status = "completed" ∨ gnew.status = "failed")) ∧
    (getSources st topicId ≠ [] →
      ∃ gnew,
        (generateAIContentBulk st topicId resp gid firstQid
          now).1.generations = st.generations ++ [gnew] ∧
        gnew.id = gid ∧
        (gnew.status = "completed" ∨ gnew.status = "failed")) ∧
    (∀ r, (processDirectTextInput st topicId text resp gid firstQid now).2
        = Except.ok r →
      ∃ gnew,
        (processDirectTextInput st topicId text resp gid firstQid
          now).1.generations = st.generations ++ [gnew] ∧
        gnew.id = gid ∧ gnew.status = "completed") ∧
    (∀ e, (processDirectTextInput st topicId text resp gid firstQid now).2
        = Except.error e →
      (processDirectTextInput st topicId text resp gid firstQid now).1
        = st) := by
  refine ⟨?_, ?_, ?_, ?_⟩
  · intro hv hk
    have hv' : (resolveSelectiveSourceIds st topicId sourceIds).isEmpty
        = false := by simp [List.isEmpty_iff, hv]
    have hk' : (getKnowledgeBaseBySourceIds st topicId
        (resolveSelectiveSourceIds st topicId sourceIds)).isEmpty = false := by
      simp [List.isEmpty_iff, hk]
    simp only [generateAIContentFromSources, hv', hk', Bool.false_eq_true,
      if_false]
    cases hfp : fpGenerateAIContent
        ((getKnowledgeBaseBySourceIds st topicId
          (resolveSelectiveSourceIds st topicId sourceIds)).map
          KBEntry.content) resp with
    | error e =>
      obtain ⟨hstate, -⟩ := runGenerationCore_error_spec st topicId gid
        firstQid now "selective"
        (resolveSelectiveSourceIds st topicId sourceIds)
        ((getKnowledgeBaseBySourceIds st topicId
          (resolveSelectiveSourceIds st topicId sourceIds)).map
          KBEntry.content) resp e hfp hfresh
      rw [hstate]
      exact ⟨_, rfl, rfl, Or.inr rfl⟩
    | ok ai =>
      obtain ⟨hstate, -⟩ := runGenerationCore_ok_spec st topicId gid
        firstQid now "selective"
        (resolveSelectiveSourceIds st topicId sourceIds)
        ((getKnowledgeBaseBySourceIds st topicId
          (resolveSelectiveSourceIds st topicId sourceIds)).map
          KBEntry.content) resp ai hfp hfresh
      rw [hstate]
      exact ⟨_, rfl, rfl, Or.inl rfl⟩
  · intro hs
    have hs' : (getSources st topicId).isEmpty = false := by
      simp [List.isEmpty_iff, hs]
    simp only [generateAIContentBulk, hs', Bool.false_eq_true, if_false]
    cases hfp : fpGenerateAIContent
        ((getKnowledgeBase st topicId).map KBEntry.content) resp with
    | error e =>
      obtain ⟨hstate, -⟩ := runGenerationCore_error_spec st topicId gid
        firstQid now "bulk" ((getSources st topicId).map Source.id)
        ((getKnowledgeBase st topicId).map KBEntry.content) resp e hfp
        hfresh
      rw [hstate]
      exact ⟨_, rfl, rfl, Or.inr rfl⟩
    | ok ai =>
      obtain ⟨hstate, -⟩ := runGenerationCore_ok_spec st topicId gid
        firstQid now "bulk" ((getSources st topicId).map Source.id)
        ((getKnowledgeBase st topicId).map KBEntry.content) resp ai hfp
        hfresh
      rw [hstate]
      exact ⟨_, rfl, rfl, Or.inl rfl⟩
  · intro r hr
    cases hfp : fpGenerateAIContent [text] resp with
    | error e =>
      rw [processDirectTextInput_error_spec st topicId text resp gid
        firstQid now e hfp] at hr
      simp at hr
    | ok ai =>
      obtain ⟨hstate, -⟩ := processDirectTextInput_ok_spec st topicId text
        resp gid firstQid now ai hfp hfresh
      rw [hstate]
      exact ⟨_, rfl, rfl, rfl⟩
  · intro e he
    cases hfp : fpGenerateAIContent [text] resp with
    | error e2 =>
      rw [processDirectTextInput_error_spec st topicId text resp gid
        firstQid now e2 hfp]
    | ok ai =>
      obtain ⟨-, hres⟩ := processDirectTextInput_ok_spec st topicId text
        resp gid firstQid now ai hfp hfresh
      rw [hres] at he
      simp at he

/-- Witness for C4 amended: a concrete selective run over one topic-owned
source finalizes its freshly created Generation to a terminal status. -/
theorem C4_witness :
    ∃ gnew,
      (generateAIContentFromSources
        ⟨[⟨1, 1, some 10, "file", some 5⟩],
         [⟨5, 1, some 10, "hello", none⟩], [], [], []⟩ 1 [1, 2]
        (Except.ok (some ⟨[⟨"flashcard", some "F", none, none,
          some "easy"⟩], [], [], []⟩)) 50 100 0).1.generations
        = (⟨[⟨1, 1, some 10, "file", some 5⟩],
            [⟨5, 1, some 10, "hello", none⟩], [], [], []⟩ :
            DbState).generations ++ [gnew] ∧
      gnew.id = 50 ∧
      (gnew.status = "completed" ∨ gnew.status = "failed") :=
  (C4_amended
    ⟨[⟨1, 1, some 10, "file", some 5⟩], [⟨5, 1, some 10, "hello", none⟩],
     [], [], []⟩ 1 [1, 2]
    (Except.ok (some ⟨[⟨"flashcard", some "F", none, none, some "easy"⟩],
      [], [], []⟩)) 50 100 0 "t" (by simp)).1 (by decide) (by decide)

/-! ## C2: selective-input resolution -/

/-- C2: the selective workflow resolves the caller's ids to exactly the
topic-owned subset (a caller id survives iff some source of the topic
carries it — foreign ids are dropped without an error); when the resolved
subset is empty the call returns the `No valid sources` error with the
state untouched, so no Generation record is created; when the resolved
subset (and its knowledge-base content) is nonempty, the Generation that
the run creates carries exactly the resolved ids as its `source_ids`. -/
theorem C2_selective_resolution (st : DbState) (topicId : Nat)
    (sourceIds : List Nat) (resp : Except String (Option ParsedResponse))
    (gid firstQid now : Nat)
    (hfresh : ∀ g ∈ st.generations, g.id ≠ gid) :
    (∀ i, i ∈ resolveSelectiveSourceIds st topicId sourceIds ↔
      (i ∈ sourceIds ∧ ∃ s ∈ st.sources, s.topicId = topicId ∧
        s.id = i)) ∧
    (resolveSelectiveSourceIds st topicId sourceIds = [] →
      (generateAIContentFromSources st topicId sourceIds resp gid firstQid
        now).2
        = Except.error "No valid sources found for the selected items." ∧
      (generateAIContentFromSources st topicId sourceIds resp gid firstQid
        now).1 = st) ∧
    (resolveSelectiveSourceIds st topicId sourceIds ≠ [] →
      getKnowledgeBaseBySourceIds st topicId
        (resolveSelectiveSourceIds st topicId sourceIds) ≠ [] →
      ∃ gnew,
        (generateAIContentFromSources st topicId sourceIds resp gid firstQid
          now).1.generations = st.generations ++ [gnew] ∧
        gnew.id = gid ∧ gnew.generationType = "selective" ∧
        gnew.sourceIds = resolveSelectiveSourceIds st topicId sourceIds) := by
  refine ⟨?_, ?_, ?_⟩
  · intro i
    simp only [resolveSelectiveSourceIds, getSources, List.mem_filter,
      List.any_eq_true, beq_iff_eq]
    constructor
    · rintro ⟨hin, s, ⟨hs1, hs2⟩, hid⟩
      exact ⟨hin, s, hs1, hs2, hid⟩
    · rintro ⟨hin, s, hs, ht, hid⟩
      exact ⟨hin, s, ⟨hs, ht⟩, hid⟩
  · intro hv
    have hv' : (resolveSelectiveSourceIds st topicId sourceIds).isEmpty
        = true := by simp [List.isEmpty_iff, hv]
    constructor <;> simp [generateAIContentFromSources, hv']
  · intro hv hk
    have hv' : (resolveSelectiveSourceIds st topicId sourceIds).isEmpty
        = false := by simp [List.isEmpty_iff, hv]
    have hk' : (getKnowledgeBaseBySourceIds st topicId
        (resolveSelectiveSourceIds st topicId sourceIds)).isEmpty = false := by
      simp [List.isEmpty_iff, hk]
    simp only [generateAIContentFromSources, hv', hk', Bool.false_eq_true,
      if_false]
    cases hfp : fpGenerateAIContent
        ((getKnowledgeBaseBySourceIds st topicId
          (resolveSelectiveSourceIds st topicId sourceIds)).map
          KBEntry.content) resp with
    | error e =>
      obtain ⟨hstate, -⟩ := runGenerationCore_error_spec st topicId gid
        firstQid now "selective"
        (resolveSelectiveSourceIds st topicId sourceIds)
        ((getKnowledgeBaseBySourceIds st topicId
          (resolveSelectiveSourceIds st topicId sourceIds)).map
          KBEntry.content) resp e hfp hfresh
      rw [hstate]
      exact ⟨_, rfl, rfl, rfl, rfl⟩
    | ok ai =>
      obtain ⟨hstate, -⟩ := runGenerationCore_ok_spec st topicId gid
        firstQid now "selective"
        (resolveSelectiveSourceIds st topicId sourceIds)
        ((getKnowledgeBaseBySourceIds st topicId
          (resolveSelectiveSourceIds st topicId sourceIds)).map
          KBEntry.content) resp ai hfp hfresh
      rw [hstate]
      exact ⟨_, rfl, rfl, rfl, rfl⟩

/-- Witness for C2: a topic owning only source 1, called with the mixed
set [2, 3] of foreign ids, resolves to the empty subset, errors, and
creates nothing. -/
theorem C2_witness :
    (generateAIContentFromSources
      ⟨[⟨1, 1, some 10, "file", some 5⟩], [⟨5, 1, some 10, "hello", none⟩],
       [], [], []⟩ 1 [2, 3]
      (Except.ok (some ⟨[⟨"flashcard", some "F", none, none, some "easy"⟩],
        [], [], []⟩)) 50 100 0).2
      = Except.error "No valid sources found for the selected items." ∧
    (generateAIContentFromSources
      ⟨[⟨1, 1, some 10, "file", some 5⟩], [⟨5, 1, some 10, "hello", none⟩],
       [], [], []⟩ 1 [2, 3]
      (Except.ok (some ⟨[⟨"flashcard", some "F", none, none, some "easy"⟩],
        [], [], []⟩)) 50 100 0).1
      = ⟨[⟨1, 1, some 10, "file", some 5⟩],
         [⟨5, 1, some 10, "hello", none⟩], [], [], []⟩ :=
  (C2_selective_resolution
    ⟨[⟨1, 1, some 10, "file", some 5⟩], [⟨5, 1, some 10, "hello", none⟩],
     [], [], []⟩ 1 [2, 3]
    (Except.ok (some ⟨[⟨"flashcard", some "F", none, none, some "easy"⟩],
      [], [], []⟩)) 50 100 0 (by simp)).2.1 (by decide)


/-! ## C5: additive question pool -/

/-- C5: when a selective generation succeeds, the question pool is exactly
the prior pool with the newly generated rows appended — its size grows by
`generated` (the run's `itemsGenerated`), and no prior Question is removed
or altered; independently, `saveQuestion` — the one post-creation mutator —
changes nothing but the `is_saved` flag (every row agrees with its old
value once `isSaved` is blanked). -/
theorem C5_additive_pool (st : DbState) (topicId : Nat)
    (sourceIds : List Nat) (resp : Except String (Option ParsedResponse))
    (gid firstQid now : Nat) (res : GenRunResult)
    (hfresh : ∀ g ∈ st.generations, g.id ≠ gid)
    (hres : (generateAIContentFromSources st topicId sourceIds resp gid
      firstQid now).2 = Except.ok res) :
    (∃ newQs,
      (generateAIContentFromSources st topicId sourceIds resp gid firstQid
        now).1.questions = st.questions ++ newQs ∧
      newQs.length = res.generated) ∧
    (∀ (st2 : DbState) (qid : Nat),
      ((saveQuestion st2 qid).questions).map eraseSaved
        = st2.questions.map eraseSaved) := by
  constructor
  · cases hv : (resolveSelectiveSourceIds st topicId sourceIds).isEmpty with
    | true => simp [generateAIContentFromSources, hv] at hres
    | false =>
      cases hk : (getKnowledgeBaseBySourceIds st topicId
          (resolveSelectiveSourceIds st topicId sourceIds)).isEmpty with
      | true => simp [generateAIContentFromSources, hv, hk] at hres
      | false =>
        simp only [generateAIContentFromSources, hv, hk, Bool.false_eq_true,
          if_false] at hres ⊢
        cases hfp : fpGenerateAIContent
            ((getKnowledgeBaseBySourceIds st topicId
              (resolveSelectiveSourceIds st topicId sourceIds)).map
              KBEntry.content) resp with
        | error e =>
          obtain ⟨-, h2⟩ := runGenerationCore_error_spec st topicId gid
            firstQid now "selective"
            (resolveSelectiveSourceIds st topicId sourceIds)
            ((getKnowledgeBaseBySourceIds st topicId
              (resolveSelectiveSourceIds st topicId sourceIds)).map
              KBEntry.content) resp e hfp hfresh
          rw [h2] at hres
          simp at hres
        | ok ai =>
          obtain ⟨h1, h2⟩ := runGenerationCore_ok_spec st topicId gid
            firstQid now "selective"
            (resolveSelectiveSourceIds st topicId sourceIds)
            ((getKnowledgeBaseBySourceIds st topicId
              (resolveSelectiveSourceIds st topicId sourceIds)).map
              KBEntry.content) resp ai hfp hfresh
          rw [h2] at hres
          simp only [Except.ok.injEq] at hres
          subst hres
          rw [h1]
          refine ⟨newQuestionRows topicId ai.content gid
            (resolveSelectiveSourceIds st topicId sourceIds) firstQid,
            rfl, ?_⟩
          rw [length_newQuestionRows]
          exact (fp_ok_generated _ _ _ hfp).symm
  · intro st2 qid
    simp only [saveQuestion, List.map_map]
    apply List.map_congr_left
    intro q hq
    by_cases h : q.id == qid <;> simp [h, eraseSaved, Function.comp]

/-- Witness for C5: the concrete selective run generating one flashcard
appends exactly one question to the previously empty pool. -/
theorem C5_witness :
    ∃ newQs,
      (generateAIContentFromSources
        ⟨[⟨1, 1, some 10, "file", some 5⟩],
         [⟨5, 1, some 10, "hello", none⟩], [], [], []⟩ 1 [1, 2]
        (Except.ok (some ⟨[⟨"flashcard", some "F", none, none,
          some "easy"⟩], [], [], []⟩)) 50 100 0).1.questions
        = (⟨[⟨1, 1, some 10, "file", some 5⟩],
            [⟨5, 1, some 10, "hello", none⟩], [], [], []⟩ :
            DbState).questions ++ newQs ∧
      newQs.length = 1 :=
  (C5_additive_pool
    ⟨[⟨1, 1, some 10, "file", some 5⟩], [⟨5, 1, some 10, "hello", none⟩],
     [], [], []⟩ 1 [1, 2]
    (Except.ok (some ⟨[⟨"flashcard", some "F", none, none, some "easy"⟩],
      [], [], []⟩)) 50 100 0 ⟨1, ⟨1, 0, 0, 0⟩, 50⟩ (by simp) (by rfl)).1

/-! ## C1: attribution containment -/

/-- C1: attribution containment is preserved by every generation path —
if every recorded GenerationItem's `derived_from_sources` is a subset of
its parent Generation's `source_ids` beforehand, the same holds after a
bulk run, a selective run, and a direct-text run (the freshly recorded
items carry exactly the new Generation's resolved `source_ids`); `gid` is
the fresh id the database assigns to the new Generation. -/
theorem C1_attribution_containment (st : DbState) (topicId : Nat)
    (sourceIds : List Nat) (resp : Except String (Option ParsedResponse))
    (gid firstQid now : Nat) (text : String)
    (hA : AttributionOK st)
    (hg : ∀ g ∈ st.generations, g.id ≠ gid)
    (hi : ∀ gi ∈ st.generationItems, gi.generationId ≠ gid) :
    AttributionOK
      (generateAIContentBulk st topicId resp gid firstQid now).1 ∧
    AttributionOK
      (generateAIContentFromSources st topicId sourceIds resp gid firstQid
        now).1 ∧
    AttributionOK
      (processDirectTextInput st topicId text resp gid firstQid now).1 := by
  refine ⟨?_, ?_, ?_⟩
  · cases hs : (getSources st topicId).isEmpty with
    | true => simpa [generateAIContentBulk, hs] using hA
    | false =>
      simp only [generateAIContentBulk, hs, Bool.false_eq_true, if_false]
      exact runGenerationCore_attribution _ _ _ _ _ _ _ _ _ hA hg hi
  · cases hv : (resolveSelectiveSourceIds st topicId sourceIds).isEmpty with
    | true => simpa [generateAIContentFromSources, hv] using hA
    | false =>
      cases hk : (getKnowledgeBaseBySourceIds st topicId
          (resolveSelectiveSourceIds st topicId sourceIds)).isEmpty with
      | true => simpa [generateAIContentFromSources, hv, hk] using hA
      | false =>
        simp only [generateAIContentFromSources, hv, hk,
          Bool.false_eq_true, if_false]
        exact runGenerationCore_attribution _ _ _ _ _ _ _ _ _ hA hg hi
  · exact processDirectTextInput_attribution _ _ _ _ _ _ _ hA hg hi

/-- Witness for C1 at a concrete state and response: all three generation
paths leave the attribution-containment invariant intact. -/
theorem C1_witness :
    AttributionOK
      (generateAIContentBulk
        ⟨[⟨1, 1, some 10, "file", some 5⟩],
         [⟨5, 1, some 10, "hello", none⟩], [], [], []⟩ 1
        (Except.ok (some ⟨[⟨"flashcard", some "F", none, none,
          some "easy"⟩], [], [], []⟩)) 50 100 0).1 ∧
    AttributionOK
      (generateAIContentFromSources
        ⟨[⟨1, 1, some 10, "file", some 5⟩],
         [⟨5, 1, some 10, "hello", none⟩], [], [], []⟩ 1 [1, 2]
        (Except.ok (some ⟨[⟨"flashcard", some "F", none, none,
          some "easy"⟩], [], [], []⟩)) 50 100 0).1 ∧
    AttributionOK
      (processDirectTextInput
        ⟨[⟨1, 1, some 10, "file", some 5⟩],
         [⟨5, 1, some 10, "hello", none⟩], [], [], []⟩ 1 "note"
        (Except.ok (some ⟨[⟨"flashcard", some "F", none, none,
          some "easy"⟩], [], [], []⟩)) 50 100 0).1 :=
  C1_attribution_containment
    ⟨[⟨1, 1, some 10, "file", some 5⟩], [⟨5, 1, some 10, "hello", none⟩],
     [], [], []⟩ 1 [1, 2]
    (Except.ok (some ⟨[⟨"flashcard", some "F", none, none, some "easy"⟩],
      [], [], []⟩)) 50 100 0 "note"
    (by intro gi hgi; simp at hgi) (by simp) (by simp)


/-! ## C10: attribution is run-granular, never per-item -/

/-- C10: on every generation path the attribution recorded per item is
exactly the parent Generation's full resolved source-id list, never a
proper per-item subset — after a selective run every GenerationItem and
Question stamped with the new generation id carries precisely the resolved
subset, after a bulk run precisely the ids of all the topic's sources, and
after a direct-text run precisely the empty list; hence all items of one
Generation carry identical source attribution.  `gid` is the fresh id of
the new Generation. -/
theorem C10_attribution_granularity (st : DbState) (topicId : Nat)
    (sourceIds : List Nat) (resp : Except String (Option ParsedResponse))
    (gid firstQid now : Nat) (text : String)
    (hg : ∀ g ∈ st.generations, g.id ≠ gid)
    (hi : ∀ gi ∈ st.generationItems, gi.generationId ≠ gid)
    (hq : ∀ q ∈ st.questions, q.generationId ≠ some gid) :
    ((∀ gi ∈ (generateAIContentFromSources st topicId sourceIds resp gid
        firstQid now).1.generationItems, gi.generationId = gid →
      gi.derivedFromSources = resolveSelectiveSourceIds st topicId
        sourceIds) ∧
     (∀ q ∈ (generateAIContentFromSources st topicId sourceIds resp gid
        firstQid now).1.questions, q.generationId = some gid →
      q.sourceAttribution = resolveSelectiveSourceIds st topicId
        sourceIds) ∧
     (∀ g ∈ (generateAIContentFromSources st topicId sourceIds resp gid
        firstQid now).1.generations, g.id = gid →
      g.sourceIds = resolveSelectiveSourceIds st topicId sourceIds)) ∧
    ((∀ gi ∈ (generateAIContentBulk st topicId resp gid firstQid
        now).1.generationItems, gi.generationId = gid →
      gi.derivedFromSources = (getSources st topicId).map Source.id) ∧
     (∀ q ∈ (generateAIContentBulk st topicId resp gid firstQid
        now).1.questions, q.generationId = some gid →
      q.sourceAttribution = (getSources st topicId).map Source.id) ∧
     (∀ g ∈ (generateAIContentBulk st topicId resp gid firstQid
        now).1.generations, g.id = gid →
      g.sourceIds = (getSources st topicId).map Source.id)) ∧
    ((∀ gi ∈ (processDirectTextInput st topicId text resp gid firstQid
        now).1.generationItems, gi.generationId = gid →
      gi.derivedFromSources = ([] : List Nat)) ∧
     (∀ q ∈ (processDirectTextInput st topicId text resp gid firstQid
        now).1.questions, q.generationId = some gid →
      q.sourceAttribution = ([] : List Nat)) ∧
     (∀ g ∈ (processDirectTextInput st topicId text resp gid firstQid
        now).1.generations, g.id = gid →
      g.sourceIds = ([] : List Nat))) := by
  refine ⟨?_, ?_, ?_⟩
  · cases hv : (resolveSelectiveSourceIds st topicId sourceIds).isEmpty with
    | true =>
      refine ⟨?_, ?_, ?_⟩ <;> simp only [generateAIContentFromSources, hv,
        if_true]
      · intro gi hgi hid
        exact absurd hid (hi gi hgi)
      · intro q hqm hid
        exact absurd hid (hq q hqm)
      · intro g hgmem hid
        exact absurd hid (hg g hgmem)
    | false =>
      cases hk : (getKnowledgeBaseBySourceIds st topicId
          (resolveSelectiveSourceIds st topicId sourceIds)).isEmpty with
      | true =>
        refine ⟨?_, ?_, ?_⟩ <;> simp only [generateAIContentFromSources,
          hv, hk, Bool.false_eq_true, if_false, if_true]
        · intro gi hgi hid
          exact absurd hid (hi gi hgi)
        · intro q hqm hid
          exact absurd hid (hq q hqm)
        · intro g hgmem hid
          exact absurd hid (hg g hgmem)
      | false =>
        simp only [generateAIContentFromSources, hv, hk,
          Bool.false_eq_true, if_false]
        exact runGenerationCore_exact_attribution _ _ _ _ _ _ _ _ _ hg hi hq
  · cases hs : (getSources st topicId).isEmpty with
    | true =>
      refine ⟨?_, ?_, ?_⟩ <;> simp only [generateAIContentBulk, hs,
        if_true]
      · intro gi hgi hid
        exact absurd hid (hi gi hgi)
      · intro q hqm hid
        exact absurd hid (hq q hqm)
      · intro g hgmem hid
        exact absurd hid (hg g hgmem)
    | false =>
      simp only [generateAIContentBulk, hs, Bool.false_eq_true, if_false]
      exact runGenerationCore_exact_attribution _ _ _ _ _ _ _ _ _ hg hi hq
  · exact processDirectTextInput_exact_attribution _ _ _ _ _ _ _ hg hi hq

/-- Witness for C10 at a concrete state and response: after the selective
run every item stamped with the new generation id carries exactly the
resolved source-id list. -/
theorem C10_witness :
    (∀ gi ∈ (generateAIContentFromSources
        ⟨[⟨1, 1, some 10, "file", some 5⟩],
         [⟨5, 1, some 10, "hello", none⟩], [], [], []⟩ 1 [1, 2]
        (Except.ok (some ⟨[⟨"flashcard", some "F", none, none,
          some "easy"⟩], [], [], []⟩)) 50 100 0).1.generationItems,
      gi.generationId = 50 →
      gi.derivedFromSources = resolveSelectiveSourceIds
        ⟨[⟨1, 1, some 10, "file", some 5⟩],
         [⟨5, 1, some 10, "hello", none⟩], [], [], []⟩ 1 [1, 2]) ∧
    (∀ q ∈ (generateAIContentFromSources
        ⟨[⟨1, 1, some 10, "file", some 5⟩],
         [⟨5, 1, some 10, "hello", none⟩], [], [], []⟩ 1 [1, 2]
        (Except.ok (some ⟨[⟨"flashcard", some "F", none, none,
          some "easy"⟩], [], [], []⟩)) 50 100 0).1.questions,
      q.generationId = some 50 →
      q.sourceAttribution = resolveSelectiveSourceIds
        ⟨[⟨1, 1, some 10, "file", some 5⟩],
         [⟨5, 1, some 10, "hello", none⟩], [], [], []⟩ 1 [1, 2]) ∧
    (∀ g ∈ (generateAIContentFromSources
        ⟨[⟨1, 1, some 10, "file", some 5⟩],
         [⟨5, 1, some 10, "hello", none⟩], [], [], []⟩ 1 [1, 2]
        (Except.ok (some ⟨[⟨"flashcard", some "F", none, none,
          some "easy"⟩], [], [], []⟩)) 50 100 0).1.generations,
      g.id = 50 →
      g.sourceIds = resolveSelectiveSourceIds
        ⟨[⟨1, 1, some 10, "file", some 5⟩],
         [⟨5, 1, some 10, "hello", none⟩], [], [], []⟩ 1 [1, 2]) :=
  (C10_attribution_granularity
    ⟨[⟨1, 1, some 10, "file", some 5⟩], [⟨5, 1, some 10, "hello", none⟩],
     [], [], []⟩ 1 [1, 2]
    (Except.ok (some ⟨[⟨"flashcard", some "F", none, none, some "easy"⟩],
      [], [], []⟩)) 50 100 0 "note" (by simp) (by simp) (by simp)).1


end Quizapp
